/- Verification of the KOSINTER username-enumeration tool (src/kosinter.py).

   The Python source is shallowly embedded below:
   * text is `String` / `List Char`; Python `str.lower` is modelled on the
     ASCII range (`lowerChar`), which covers every marker string the code uses;
   * the network probe performed by `requests.get` is an input to the
     classifier: a `ProbeOutcome` is either a captured `Response` or a
     transport failure (`requests.RequestException`) carrying its message;
   * `resp.json()` is modelled by the `Response.json : Option Jv` field
     (`none` = the body does not parse, i.e. `ValueError`);
   * Python exceptions that are NOT caught by the source (notably
     `AttributeError` from calling `.get` on a non-dict) are modelled by
     `Except PyExn`. -/
import Mathlib

namespace Kosinter

/-! ## Basic text helpers -/

/-- The separator class of `re.split(r"[._-]", ...)` / `re.search(r"[._-]", ...)`. -/
def isSepChar (c : Char) : Bool :=
  c == '.' || c == '_' || c == '-'

/-- ASCII lowering of one character, as Python `str.lower` acts on ASCII text. -/
def lowerChar (c : Char) : Char :=
  if 65 ≤ c.toNat ∧ c.toNat ≤ 90 then Char.ofNat (c.toNat + 32) else c

/-- Python `s.lower()` (restricted to ASCII letters). -/
def pyLower (s : String) : String :=
  String.mk (s.data.map lowerChar)

/-- Does `needle` occur at the head of `hay`? -/
def occursAt : List Char → List Char → Bool
  | [], _ => true
  | _ :: _, [] => false
  | a :: as, b :: bs => a == b && occursAt as bs

/-- Does `needle` occur contiguously anywhere in `hay`? (Python `needle in hay`.) -/
def occursInL (needle : List Char) : List Char → Bool
  | [] => needle.isEmpty
  | b :: bs => occursAt needle (b :: bs) || occursInL needle bs

/-- Python substring test `needle in hay` on strings. -/
def occursIn (needle hay : String) : Bool :=
  occursInL needle.data hay.data

/-- Python `sep.join(parts)` for a character-list separator. -/
def pyJoin (sep : List Char) : List (List Char) → List Char
  | [] => []
  | [p] => p
  | p :: q :: rest => p ++ sep ++ pyJoin sep (q :: rest)

/-! ## Variant generator (`generate_variants`, kosinter.py lines 212-236) -/

/-- `re.split(r"[._-]", s)`: split at EVERY occurrence of a separator
    character; `n` separator occurrences yield `n + 1` parts, so consecutive
    separators produce empty parts. -/
def splitSeps : List Char → List (List Char)
  | [] => [[]]
  | a :: rest =>
    if isSepChar a then [] :: splitSeps rest
    else
      match splitSeps rest with
      | [] => [[a]]
      | p :: ps => (a :: p) :: ps

/-- The `parts` list computed by `generate_variants`: split on separators when
    one is present, else midpoint split for length ≥ 4, else the base alone.
    Python `base[:mid]` / `base[mid:]` with `mid = len(base) // 2`. -/
def partsOf (base : List Char) : List (List Char) :=
  if base.any isSepChar then splitSeps base
  else if 4 ≤ base.length then [base.take (base.length / 2), base.drop (base.length / 2)]
  else [base]

/-- Modelled from the spec (§4.1 step 1), for comparison with `partsOf`:
    "split on the first run of any of those characters (treat contiguous
    separator runs as a single split point)", yielding exactly two parts. -/
def firstRunSplitSpec (base : List Char) : List (List Char) :=
  [base.takeWhile (fun c => !isSepChar c),
   (base.dropWhile (fun c => !isSepChar c)).dropWhile isSepChar]

/-- The five candidate spellings, in the order the source lists them:
    `[base_username, root, dot, dash, underscore]`. -/
def candidatesOf (base : String) : List String :=
  [base,
   String.mk (pyJoin [] (partsOf base.data)),
   String.mk (pyJoin ['.'] (partsOf base.data)),
   String.mk (pyJoin ['-'] (partsOf base.data)),
   String.mk (pyJoin ['_'] (partsOf base.data))]

/-- The dedup-and-filter loop of `generate_variants`:
    `if c and c not in seen: seen.add(c); variants.append(c)`. -/
def dedupNonempty (seen : List String) : List String → List String
  | [] => []
  | c :: cs =>
    if c ≠ "" ∧ c ∉ seen then c :: dedupNonempty (c :: seen) cs
    else dedupNonempty seen cs

/-- `generate_variants(base_username)` (kosinter.py lines 212-236). -/
def generate_variants (base : String) : List String :=
  dedupNonempty [] (candidatesOf base)

/-! ## JSON values and the Python dynamic operations the source uses -/

/-- A parsed JSON value, as `resp.json()` would return it (`null` is Python
    `None`; numbers are restricted to integers, which covers every body the
    source inspects). -/
inductive Jv where
  | null
  | bool (b : Bool)
  | num (n : Int)
  | str (s : String)
  | arr (xs : List Jv)
  | obj (fields : List (String × Jv))

/-- The uncaught Python exception the source can raise: `AttributeError`
    from calling `.get` on a value that is not a dict. -/
inductive PyExn where
  | attributeError
deriving DecidableEq

/-- Key lookup in a parsed JSON object (`json.loads` produces unique keys). -/
def lookupKey : List (String × Jv) → String → Option Jv
  | [], _ => none
  | (k, v) :: rest, key => if k == key then some v else lookupKey rest key

/-- Python `v.get(key, dflt)`: defined on dicts, raises `AttributeError`
    on every other value. -/
def dictGet (v : Jv) (key : String) (dflt : Jv) : Except PyExn Jv :=
  match v with
  | .obj kvs => .ok ((lookupKey kvs key).getD dflt)
  | _ => .error .attributeError

/-- Python truthiness for the values `resp.json()` can produce. -/
def truthy : Jv → Bool
  | .null => false
  | .bool b => b
  | .num n => n != 0
  | .str s => s != ""
  | .arr [] => false
  | .arr (_ :: _) => true
  | .obj [] => false
  | .obj (_ :: _) => true

/-! ## The probe boundary -/

/-- A captured HTTP response: `resp.status_code`, `resp.text`, `resp.url`
    (final post-redirect URL) and the outcome of `resp.json()`
    (`none` = `ValueError`, the body is not valid JSON). -/
structure Response where
  status : Nat
  body : String
  finalUrl : String
  json : Option Jv

/-- What one `requests.get` call produces: either a captured response or a
    `requests.RequestException` carrying its stringified message `str(e)`. -/
inductive ProbeOutcome where
  | failure (e : String)
  | success (r : Response)

/-- The triple returned by `check_profile`: `(exists, http_status, error)`. -/
abbrev CheckTriple := Bool × Option Nat × Option String

/-- The three-valued verdict of the spec (§3). -/
inductive Verdict where
  | Exists
  | NotExists
  | Uncertain
deriving DecidableEq

/-- The spec's reading of a `check_profile` triple (§4.2): `exists = true`
    is `Exists`; `exists = false` with no note is `NotExists`; `exists =
    false` with a note ("uncertain", "invalid_json", or a transport error)
    is `Uncertain`. -/
def verdictOf : Bool → Option String → Verdict
  | true, _ => Verdict.Exists
  | false, none => Verdict.NotExists
  | false, some _ => Verdict.Uncertain

/-! ## The existence classifier (`check_profile`, kosinter.py lines 36-190) -/

/-- The exact error-span marker of the Twitter branch (`not_exist_span`). -/
def notExistSpan : String :=
  "<span class=\"css-1jxf684 r-bcqeeo r-1ttztb7 r-qvutc0 r-poiln3\">Hmm...this page doesn’t exist. Try searching for something else.</span>"

/-- The `not_exist_texts` markers of the Twitter branch. -/
def notExistTexts : List String :=
  ["hmm...this page doesn’t exist. try searching for something else.",
   "hmm...this page doesn't exist. try searching for something else."]

/-- The `positive_markers` of the Twitter branch, built from the lowercased
    handle. -/
def positiveMarkers (handle : String) : List String :=
  ["(@" ++ handle ++ ") / x",
   "(@" ++ handle ++ ") / twitter",
   "\"screen_name\":\"" ++ handle ++ "\"",
   "\"screen_name\": \"" ++ handle ++ "\"",
   "@" ++ handle ++ " ·"]

/-- The reddit "not found" body texts. -/
def redditNegTexts : List String :=
  ["sorry, nobody on reddit goes by that name", "page not found"]

/-- The tiktok "not found" body texts. -/
def tiktokNegTexts : List String :=
  ["couldn't find this account",
   "couldn’t find this account",
   "account not found",
   "this account could not be found"]

/-- The Instagram branch (kosinter.py lines 40-70): authoritative JSON API.
    The nested `match`es on `dictGet` spell out `data.get("data", {})` and
    `.get("user")`, each of which raises `AttributeError` when its receiver
    is not a dict — exceptions the source does not catch. -/
def classify_instagram (username : String) (pr : ProbeOutcome) :
    Except PyExn CheckTriple :=
  match pr with
  | .failure e => .ok (false, none, some e)
  | .success r =>
    if r.status == 200 then
      match r.json with
      | none => .ok (false, some r.status, some "invalid_json")
      | some data =>
        match dictGet data "data" (.obj []) with
        | .error ex => .error ex
        | .ok d =>
          match dictGet d "user" .null with
          | .error ex => .error ex
          | .ok userObj => .ok (truthy userObj, some r.status, none)
    else if r.status == 404 then .ok (false, some r.status, none)
    else .ok (false, some r.status, some "uncertain")

/-- The Twitter branch (kosinter.py lines 73-134): HTML inspection, checks
    in strict priority order, first match wins. `username` is lowered once
    (`uname = username.lower()`) before being embedded in positive markers. -/
def classify_twitter (username : String) (pr : ProbeOutcome) :
    Except PyExn CheckTriple :=
  match pr with
  | .failure e => .ok (false, none, some e)
  | .success r =>
    if occursIn notExistSpan r.body then .ok (false, some r.status, none)
    else if notExistTexts.any (fun t => occursIn t (pyLower r.body)) then
      .ok (false, some r.status, none)
    else if r.status == 404 then .ok (false, some r.status, none)
    else if occursIn "account suspended" (pyLower r.body)
        || occursIn "/account/suspended" (pyLower r.finalUrl) then
      .ok (true, some r.status, none)
    else if (positiveMarkers (pyLower username)).any
        (fun m => occursIn m (pyLower r.body)) then
      .ok (true, some r.status, none)
    else .ok (false, some r.status, some "uncertain")

/-- The remaining services (kosinter.py lines 136-190): status/markup
    heuristics, with negative body-text overrides for reddit and tiktok and
    an explicit facebook branch identical to the status rule. -/
def classify_default (service username : String) (pr : ProbeOutcome) :
    Except PyExn CheckTriple :=
  match pr with
  | .failure e => .ok (false, none, some e)
  | .success r =>
    if service == "facebook" then
      if r.status == 200 then .ok (true, some r.status, none)
      else if r.status == 404 then .ok (false, some r.status, none)
      else .ok (false, some r.status, some "uncertain")
    else if service == "reddit" then
      if redditNegTexts.any (fun t => occursIn t (pyLower r.body)) then
        .ok (false, some r.status, none)
      else if r.status == 200 then .ok (true, some r.status, none)
      else if r.status == 404 then .ok (false, some r.status, none)
      else .ok (false, some r.status, some "uncertain")
    else if service == "tiktok" then
      if tiktokNegTexts.any (fun t => occursIn t (pyLower r.body)) then
        .ok (false, some r.status, none)
      else if r.status == 200 then .ok (true, some r.status, none)
      else if r.status == 404 then .ok (false, some r.status, none)
      else .ok (false, some r.status, some "uncertain")
    else
      if r.status == 200 then .ok (true, some r.status, none)
      else if r.status == 404 then .ok (false, some r.status, none)
      else .ok (false, some r.status, some "uncertain")

/-- `check_profile(service, username, url)` (kosinter.py lines 36-190).
    The probe outcome of the one `requests.get` the selected branch performs
    is passed in as `pr`; the `url` argument is, as in the source, used only
    to address that request, never in classification. -/
def check_profile (service username url : String) (pr : ProbeOutcome) :
    Except PyExn CheckTriple :=
  if service == "instagram" then classify_instagram username pr
  else if service == "twitter" then classify_twitter username pr
  else classify_default service username pr

/-! ## Platform registry and scan orchestrator (kosinter.py lines 12-23, 193-209, 274-278) -/

/-- The `SERVICES` table: platform id and URL template (the template's single
    placeholder becomes a function argument). Order is the source's
    definition order. -/
def SERVICES : List (String × (String → String)) :=
  [("instagram", fun u => "https://www.instagram.com/" ++ u ++ "/"),
   ("facebook", fun u => "https://www.facebook.com/" ++ u),
   ("twitter", fun u => "https://twitter.com/" ++ u),
   ("github", fun u => "https://github.com/" ++ u),
   ("github_gist", fun u => "https://gist.github.com/" ++ u),
   ("gitlab", fun u => "https://gitlab.com/" ++ u),
   ("reddit", fun u => "https://www.reddit.com/user/" ++ u),
   ("tiktok", fun u => "https://www.tiktok.com/@" ++ u),
   ("youtube", fun u => "https://www.youtube.com/@" ++ u),
   ("snapchat", fun u => "https://www.snapchat.com/add/" ++ u)]

/-- The registered platform ids, in registry order. -/
def serviceIds : List String := SERVICES.map Prod.fst

/-- `UsernameCheckResult` (kosinter.py lines 26-33). The source's field
    `exists` is a Lean keyword and is embedded as `found`. -/
structure UsernameCheckResult where
  service : String
  username : String
  url : String
  found : Bool
  http_status : Option Nat
  error : Option String
deriving DecidableEq

/-- A probe oracle: what the network returns for each request
    `(service, username, url)` issued during a scan. -/
abbrev Probe := String → String → String → ProbeOutcome

/-- The loop body of `check_username_single` over a service list: build the
    url from the template, call `check_profile`, record the result keyed by
    service id, in order. An uncaught exception aborts the remaining
    iterations, as in Python. -/
def check_services (probe : Probe) (username : String) :
    List (String × (String → String)) → Except PyExn (List (String × UsernameCheckResult))
  | [] => .ok []
  | sv :: rest =>
    match check_profile sv.1 username (sv.2 username) (probe sv.1 username (sv.2 username)) with
    | .error ex => .error ex
    | .ok (ex?, st, er) =>
      match check_services probe username rest with
      | .error ex => .error ex
      | .ok tail => .ok ((sv.1, ⟨sv.1, username, sv.2 username, ex?, st, er⟩) :: tail)

/-- `check_username_single(username)` (kosinter.py lines 193-209): one row of
    the result table, keyed by service. -/
def check_username_single (probe : Probe) (username : String) :
    Except PyExn (List (String × UsernameCheckResult)) :=
  check_services probe username SERVICES

/-- The scan loop of `run_scan` over a variant list
    (`for v in variants: all_results[v] = check_username_single(v)`). -/
def scan_variants (probe : Probe) :
    List String → Except PyExn (List (String × List (String × UsernameCheckResult)))
  | [] => .ok []
  | v :: vs =>
    match check_username_single probe v with
    | .error ex => .error ex
    | .ok row =>
      match scan_variants probe vs with
      | .error ex => .error ex
      | .ok rest => .ok ((v, row) :: rest)

/-- The result table built by `run_scan` (kosinter.py lines 274-278) for a
    base username, keyed by variant then by service. -/
def run_scan_table (probe : Probe) (base : String) :
    Except PyExn (List (String × List (String × UsernameCheckResult))) :=
  scan_variants probe (generate_variants base)

/-- The (variant, platform) keys of a result table, in table order. -/
def tableKeys (tbl : List (String × List (String × UsernameCheckResult))) :
    List (String × String) :=
  tbl.flatMap (fun p => p.2.map (fun q => (p.1, q.1)))

/-! ## Marker predicates (the "defined positive/negative markers" of spec §8) -/

/-- Does any negative ("not found") marker defined for `service` match the
    captured response?  Twitter: the error span and texts; reddit and
    tiktok: their body texts; every other service defines none. -/
def negativeMarkerHit (service : String) (r : Response) : Bool :=
  if service == "twitter" then
    occursIn notExistSpan r.body
      || notExistTexts.any (fun t => occursIn t (pyLower r.body))
  else if service == "reddit" then
    redditNegTexts.any (fun t => occursIn t (pyLower r.body))
  else if service == "tiktok" then
    tiktokNegTexts.any (fun t => occursIn t (pyLower r.body))
  else false

/-- Does any positive ("account exists") marker defined for `service` match
    the captured response?  Only the Twitter family defines body/URL
    markers (suspension and handle-embedding markers); the other families
    decide positives from the HTTP status or, for Instagram, from the JSON
    shape of a 200 response — not from body markers. -/
def positiveMarkerHit (service username : String) (r : Response) : Bool :=
  if service == "twitter" then
    occursIn "account suspended" (pyLower r.body)
      || occursIn "/account/suspended" (pyLower r.finalUrl)
      || (positiveMarkers (pyLower username)).any (fun m => occursIn m (pyLower r.body))
  else false

/-! ## Concrete captured inputs used by witnesses and counterexamples -/

/-- A captured Instagram 200 response with JSON body
    `{"data": {"user": null}}` (spec §8, handle `ghost`). -/
def ghostResp : Response :=
  ⟨200, "", "", some (.obj [("data", .obj [("user", .null)])])⟩

/-- A captured Instagram 200 response whose body is the VALID JSON list
    `[1, 2]`: `resp.json()` succeeds, then `data.get` raises
    `AttributeError`. -/
def listJsonResp : Response :=
  ⟨200, "[1, 2]", "", some (.arr [.num 1, .num 2])⟩

/-- A captured Instagram 200 response whose body is not valid JSON. -/
def invalidJsonResp : Response :=
  ⟨200, "<html>profile page</html>", "", none⟩

/-- A captured Twitter 200 body announcing a suspended account. -/
def suspendedResp : Response :=
  ⟨200, "Account Suspended", "", none⟩

/-- A captured Twitter 200 body containing BOTH a "page doesn't exist"
    marker and "account suspended". -/
def suspendedAndGoneResp : Response :=
  ⟨200, "hmm...this page doesn't exist. try searching for something else. account suspended", "", none⟩

/-- A captured response with an unclassifiable status and no markers. -/
def status500Resp : Response :=
  ⟨500, "internal server error", "", none⟩

/-- A captured plain 200 response with an empty body. -/
def plain200Resp : Response :=
  ⟨200, "", "", none⟩

/-- A probe for which every request fails at the transport level. -/
def timeoutProbe : Probe := fun _ _ _ => .failure "timed out"

/-- The result table of a scan of base handle `"ab"` under `timeoutProbe`. -/
def demoTable : List (String × List (String × UsernameCheckResult)) :=
  match run_scan_table timeoutProbe "ab" with
  | .ok t => t
  | .error _ => []

/-! ## Lemmas about the variant generator -/

theorem splitSeps_ne_nil (cs : List Char) : splitSeps cs ≠ [] := by
  cases cs with
  | nil => simp [splitSeps]
  | cons a rest =>
    simp only [splitSeps]
    split
    · simp
    · split <;> simp

theorem splitSeps_length (cs : List Char) :
    (splitSeps cs).length = cs.countP (fun c => isSepChar c) + 1 := by
  induction cs with
  | nil => simp [splitSeps]
  | cons a rest ih =>
    simp only [splitSeps, List.countP_cons]
    by_cases ha : isSepChar a = true
    · simp [ha, ih]
    · cases heq : splitSeps rest with
      | nil => exact absurd heq (splitSeps_ne_nil rest)
      | cons p ps =>
        rw [heq] at ih
        simp only [List.length_cons] at ih
        simp [ha, heq]
        omega

theorem pyJoin_splitSeps (c : Char) (cs : List Char) :
    pyJoin [c] (splitSeps cs) = cs.map (fun x => if isSepChar x then c else x) := by
  induction cs with
  | nil => rfl
  | cons a rest ih =>
    by_cases ha : isSepChar a = true
    · have hsplit : splitSeps (a :: rest) = [] :: splitSeps rest := by
        simp [splitSeps, ha]
      cases heq : splitSeps rest with
      | nil => exact absurd heq (splitSeps_ne_nil rest)
      | cons p ps =>
        rw [heq] at ih
        rw [hsplit, heq]
        simp only [pyJoin, List.nil_append, List.singleton_append, List.map_cons, ha, if_pos]
        exact congrArg (c :: ·) ih
    · cases heq : splitSeps rest with
      | nil => exact absurd heq (splitSeps_ne_nil rest)
      | cons p ps =>
        have hsplit : splitSeps (a :: rest) = (a :: p) :: ps := by
          simp [splitSeps, ha, heq]
        rw [heq] at ih
        rw [hsplit]
        cases ps with
        | nil =>
          simp only [pyJoin] at ih ⊢
          simp [List.map_cons, ha, ih]
        | cons q qs =>
          simp only [pyJoin, List.cons_append, List.map_cons, ha, if_neg] at ih ⊢
          simp [ih]

theorem dedupNonempty_spec (cs : List String) : ∀ seen : List String,
    (dedupNonempty seen cs).Nodup ∧ ∀ x ∈ dedupNonempty seen cs, x ∉ seen := by
  induction cs with
  | nil =>
    intro seen
    exact ⟨List.nodup_nil, by intro x hx; simp [dedupNonempty] at hx⟩
  | cons c cs ih =>
    intro seen
    simp only [dedupNonempty]
    split
    next hc =>
      obtain ⟨hnd, hni⟩ := ih (c :: seen)
      refine ⟨List.nodup_cons.mpr ⟨fun hmem => hni c hmem (List.mem_cons_self _ _), hnd⟩, ?_⟩
      intro x hx
      rcases List.mem_cons.mp hx with rfl | hx'
      · exact hc.2
      · exact fun hxs => hni x hx' (List.mem_cons_of_mem _ hxs)
    next hc =>
      exact ih seen

/-- The variant list of any base handle has no duplicates. -/
theorem generate_variants_nodup (base : String) : (generate_variants base).Nodup :=
  (dedupNonempty_spec (candidatesOf base) []).1

/-! ## C1: how `parts` is actually obtained from a base with separators -/

/-- C1 (counterexample): the claim says a base containing separators is
    decomposed "into exactly two parts at the first separator run" and that
    "runs of consecutive separators never yield empty parts". On the code,
    `"a.b.c"` yields the three parts `["a", "b", "c"]` (not the two parts
    `["a", "b.c"]` of the first-run split), and `"a..b"` yields an empty
    middle part. -/
theorem parts_first_run_counterexample :
    partsOf "a.b.c".data = [['a'], ['b'], ['c']]
    ∧ (partsOf "a.b.c".data).length ≠ 2
    ∧ partsOf "a.b.c".data ≠ firstRunSplitSpec "a.b.c".data
    ∧ [] ∈ partsOf "a..b".data := by
  refine ⟨by decide, by decide, by decide, by decide⟩

/-- C1 (amended): for every base containing at least one separator, `parts`
    is `re.split`'s decomposition at EVERY individual separator occurrence:
    there are (number of separator occurrences + 1) parts — so runs of
    consecutive separators yield empty parts — and re-joining the parts
    with `'-'` reproduces the base with every separator replaced by `'-'`. -/
theorem parts_split_every_separator (cs : List Char) (h : cs.any isSepChar = true) :
    partsOf cs = splitSeps cs
    ∧ (partsOf cs).length = cs.countP (fun c => isSepChar c) + 1
    ∧ pyJoin ['-'] (partsOf cs) = cs.map (fun x => if isSepChar x then '-' else x) := by
  have hp : partsOf cs = splitSeps cs := by simp [partsOf, h]
  exact ⟨hp, by rw [hp]; exact splitSeps_length cs,
         by rw [hp]; exact pyJoin_splitSeps '-' cs⟩

/-- C1 (witness): the amended statement evaluated at the base `"a.b.c"`. -/
theorem parts_split_every_separator_witness :
    partsOf "a.b.c".data = splitSeps "a.b.c".data
    ∧ (partsOf "a.b.c".data).length = "a.b.c".data.countP (fun c => isSepChar c) + 1
    ∧ pyJoin ['-'] (partsOf "a.b.c".data)
        = "a.b.c".data.map (fun x => if isSepChar x then '-' else x) :=
  parts_split_every_separator "a.b.c".data (by decide)

/-! ## C6 and C10: concrete variant-generator outputs -/

/-- C6: `generate_variants("john.doe")` builds exactly the five candidates
    `["john.doe", "johndoe", "john.doe", "john-doe", "john_doe"]` and
    deduplicates them, first occurrence winning, to
    `["john.doe", "johndoe", "john-doe", "john_doe"]`. -/
theorem variants_john_doe :
    candidatesOf "john.doe" = ["john.doe", "johndoe", "john.doe", "john-doe", "john_doe"]
    ∧ generate_variants "john.doe" = ["john.doe", "johndoe", "john-doe", "john_doe"] :=
  ⟨by decide, by decide⟩

/-- C10: the empty base handle generates no variants: every candidate
    collapses to `""` and empty strings are filtered out. -/
theorem variants_empty_base :
    candidatesOf "" = ["", "", "", "", ""] ∧ generate_variants "" = [] :=
  ⟨by decide, by decide⟩

/-! ## C2: transport failures vs. the uncaught AttributeError -/

/-- C2: every transport failure, for every platform, is reported as an
    `Uncertain` verdict with the stringified error as note and no status —
    but the "never raises on any body" half of the claim is false: an
    Instagram 200 response whose body is the valid JSON list `[1, 2]`
    makes `data.get("data", {})` raise `AttributeError`, which
    `except requests.RequestException` does not catch, so the exception
    escapes `check_profile`. -/
theorem transport_uncertain_but_attribute_error_escapes :
    (∀ service username url e,
      check_profile service username url (.failure e) = .ok (false, none, some e))
    ∧ (∀ e, verdictOf false (some e) = Verdict.Uncertain)
    ∧ check_profile "instagram" "ghost"
        "https://www.instagram.com/ghost/" (.success listJsonResp)
        = .error PyExn.attributeError := by
  refine ⟨?_, fun e => rfl, rfl⟩
  intro service username url e
  unfold check_profile
  split
  · rfl
  · split
    · rfl
    · rfl

/-! ## C5: the suspended-account scenario for the Twitter family -/

/-- C5 (counterexample): a 200 body that contains "account suspended" is
    NOT always classified as `Exists`: the "page doesn't exist" markers are
    checked first, so a body containing both markers is classified as
    not-found (`exists = false`, no note). -/
theorem twitter_suspended_counterexample :
    occursIn "account suspended" (pyLower suspendedAndGoneResp.body) = true
    ∧ suspendedAndGoneResp.status = 200
    ∧ check_profile "twitter" "ghost" "https://twitter.com/ghost"
        (.success suspendedAndGoneResp) = .ok (false, some 200, none)
    ∧ verdictOf false none ≠ Verdict.Exists := by
  refine ⟨by decide, rfl, rfl, by decide⟩

/-- C5 (amended): a captured 200 body containing "account suspended" (any
    letter case) is classified as `Exists`, PROVIDED none of the
    higher-priority "page doesn't exist" markers occurs in the body. -/
theorem twitter_suspended_exists (username url : String) (r : Response)
    (hspan : occursIn notExistSpan r.body = false)
    (htexts : notExistTexts.any (fun t => occursIn t (pyLower r.body)) = false)
    (hsusp : occursIn "account suspended" (pyLower r.body) = true)
    (h200 : r.status = 200) :
    check_profile "twitter" username url (.success r) = .ok (true, some 200, none)
    ∧ verdictOf true none = Verdict.Exists := by
  refine ⟨?_, rfl⟩
  show classify_twitter username (.success r) = _
  simp only [classify_twitter, hspan, htexts, hsusp, h200, Bool.false_eq_true,
    if_false, Bool.true_or, if_true]
  rfl

/-- C5 (witness): the amended statement at a captured 200 body
    `"Account Suspended"`. -/
theorem twitter_suspended_exists_witness :
    check_profile "twitter" "ghost" "https://twitter.com/ghost"
      (.success suspendedResp) = .ok (true, some 200, none)
    ∧ verdictOf true none = Verdict.Exists :=
  twitter_suspended_exists "ghost" "https://twitter.com/ghost" suspendedResp
    (by decide) (by decide) (by decide) rfl

/-! ## C7: the authoritative-API (Instagram) family -/

/-- C7: a captured Instagram 200 response with JSON body
    `{"data": {"user": null}}` for handle `ghost` classifies as `NotExists`
    with status 200 and no note; and every 200 response whose body fails to
    parse as JSON classifies as `Uncertain` with note `"invalid_json"`. -/
theorem instagram_ghost_null_user_and_invalid_json :
    (check_profile "instagram" "ghost" "https://www.instagram.com/ghost/"
        (.success ghostResp) = .ok (false, some 200, none)
      ∧ verdictOf false none = Verdict.NotExists)
    ∧ ∀ (username url : String) (r : Response), r.status = 200 → r.json = none →
        check_profile "instagram" username url (.success r)
          = .ok (false, some 200, some "invalid_json")
        ∧ verdictOf false (some "invalid_json") = Verdict.Uncertain := by
  refine ⟨⟨rfl, rfl⟩, ?_⟩
  intro username url r h200 hjson
  refine ⟨?_, rfl⟩
  show classify_instagram username (.success r) = _
  simp only [classify_instagram, h200, hjson, beq_self_eq_true, if_true]

/-- C7 (witness): the invalid-JSON half at a captured 200 HTML body. -/
theorem instagram_invalid_json_witness :
    check_profile "instagram" "ghost" "https://www.instagram.com/ghost/"
      (.success invalidJsonResp) = .ok (false, some 200, some "invalid_json")
    ∧ verdictOf false (some "invalid_json") = Verdict.Uncertain :=
  instagram_ghost_null_user_and_invalid_json.2 "ghost"
    "https://www.instagram.com/ghost/" invalidJsonResp rfl rfl

/-! ## C8: classification is a pure function of (platform id, handle, captured response) -/

/-- C8: `check_profile` is deterministic — the embedded classifier is a
    total function, and its value does not depend on the `url` argument
    (which only addresses the request): for a fixed platform id, handle and
    probe outcome, any two runs, with any two urls, return the same
    (exists, status, note) triple. -/
theorem check_profile_deterministic (service username url url' : String)
    (pr : ProbeOutcome) :
    check_profile service username url pr = check_profile service username url' pr := rfl

/-! ## C3: conservatism — no markers and no 200/404 status means Uncertain -/

theorem classify_instagram_uncertain (u : String) (r : Response)
    (hb200 : (r.status == 200) = false) (hb404 : (r.status == 404) = false) :
    classify_instagram u (.success r) = .ok (false, some r.status, some "uncertain") := by
  simp only [classify_instagram, hb200, hb404, Bool.false_eq_true, if_false]

theorem classify_twitter_uncertain (u : String) (r : Response)
    (hneg : negativeMarkerHit "twitter" r = false)
    (hpos : positiveMarkerHit "twitter" u r = false)
    (hb404 : (r.status == 404) = false) :
    classify_twitter u (.success r) = .ok (false, some r.status, some "uncertain") := by
  have hneg' : (occursIn notExistSpan r.body
      || (notExistTexts.any fun t => occursIn t (pyLower r.body))) = false := hneg
  have hpos' : (occursIn "account suspended" (pyLower r.body)
      || occursIn "/account/suspended" (pyLower r.finalUrl)
      || ((positiveMarkers (pyLower u)).any fun m => occursIn m (pyLower r.body))) = false := hpos
  obtain ⟨h1, h2⟩ := Bool.or_eq_false_iff.mp hneg'
  obtain ⟨h3, h45⟩ := Bool.or_eq_false_iff.mp hpos'
  simp only [classify_twitter, h1, h2, h3, h45, hb404,
    Bool.false_eq_true, if_false]

theorem classify_default_uncertain (s u : String) (r : Response)
    (hneg : negativeMarkerHit s r = false)
    (htw : (s == "twitter") = false)
    (hb200 : (r.status == 200) = false) (hb404 : (r.status == 404) = false) :
    classify_default s u (.success r) = .ok (false, some r.status, some "uncertain") := by
  simp only [negativeMarkerHit, htw, Bool.false_eq_true, if_false] at hneg
  unfold classify_default
  by_cases hfb : (s == "facebook") = true
  · simp only [hfb, if_true, hb200, hb404, Bool.false_eq_true, if_false]
  · have hfb' : (s == "facebook") = false := by
      cases hpq : s == "facebook"
      · rfl
      · exact absurd hpq hfb
    simp only [hfb', Bool.false_eq_true, if_false]
    by_cases hrd : (s == "reddit") = true
    · simp only [hrd, if_true] at hneg ⊢
      simp only [hneg, hb200, hb404, Bool.false_eq_true, if_false]
    · have hrd' : (s == "reddit") = false := by
        cases hpq : s == "reddit"
        · rfl
        · exact absurd hpq hrd
      simp only [hrd', Bool.false_eq_true, if_false] at hneg ⊢
      by_cases htk : (s == "tiktok") = true
      · simp only [htk, if_true] at hneg ⊢
        simp only [hneg, hb200, hb404, Bool.false_eq_true, if_false]
      · have htk' : (s == "tiktok") = false := by
          cases hpq : s == "tiktok"
          · rfl
          · exact absurd hpq htk
        simp only [htk', Bool.false_eq_true, if_false, hb200, hb404]

/-- C3: for every platform and every captured response, if no defined
    positive marker and no defined negative marker matches and the status
    is neither 200 nor 404, `check_profile` reports `(false, status,
    "uncertain")` — the `Uncertain` verdict, never `Exists` or `NotExists`. -/
theorem conservative_uncertain (service username url : String) (r : Response)
    (hneg : negativeMarkerHit service r = false)
    (hpos : positiveMarkerHit service username r = false)
    (h200 : r.status ≠ 200) (h404 : r.status ≠ 404) :
    check_profile service username url (.success r)
      = .ok (false, some r.status, some "uncertain")
    ∧ verdictOf false (some "uncertain") = Verdict.Uncertain := by
  have hb200 : (r.status == 200) = false := by
    cases hpq : r.status == 200
    · rfl
    · exact absurd (beq_iff_eq.mp hpq) h200
  have hb404 : (r.status == 404) = false := by
    cases hpq : r.status == 404
    · rfl
    · exact absurd (beq_iff_eq.mp hpq) h404
  refine ⟨?_, rfl⟩
  unfold check_profile
  by_cases hig : (service == "instagram") = true
  · simp only [hig, if_true]
    exact classify_instagram_uncertain username r hb200 hb404
  · have hig' : (service == "instagram") = false := by
      cases hpq : service == "instagram"
      · rfl
      · exact absurd hpq hig
    simp only [hig', Bool.false_eq_true, if_false]
    by_cases htw : (service == "twitter") = true
    · have hs := beq_iff_eq.mp htw
      subst hs
      simp only [beq_self_eq_true, if_true]
      exact classify_twitter_uncertain username r hneg hpos hb404
    · have htw' : (service == "twitter") = false := by
        cases hpq : service == "twitter"
        · rfl
        · exact absurd hpq htw
      simp only [htw', Bool.false_eq_true, if_false]
      exact classify_default_uncertain service username r hneg htw' hb200 hb404

/-- C3 (witness): a markerless 500 response probed for a github handle. -/
theorem conservative_uncertain_witness :
    check_profile "github" "ghost" "https://github.com/ghost" (.success status500Resp)
      = .ok (false, some 500, some "uncertain")
    ∧ verdictOf false (some "uncertain") = Verdict.Uncertain :=
  conservative_uncertain "github" "ghost" "https://github.com/ghost" status500Resp
    rfl rfl (by decide) (by decide)

/-! ## C9: every positive result carries a status and no note -/

theorem classify_instagram_found (u : String) (pr : ProbeOutcome) (res : CheckTriple)
    (h : classify_instagram u pr = .ok res) (hf : res.1 = true) :
    res.2.1.isSome = true ∧ res.2.2 = none := by
  cases pr with
  | failure e =>
    simp only [classify_instagram] at h
    injection h with h
    subst h
    simp at hf
  | success r =>
    simp only [classify_instagram] at h
    repeat' split at h
    all_goals first
      | exact Except.noConfusion h
      | (injection h with h; subst h; exact ⟨rfl, rfl⟩)
      | (injection h with h; subst h; simp at hf)

theorem classify_twitter_found (u : String) (pr : ProbeOutcome) (res : CheckTriple)
    (h : classify_twitter u pr = .ok res) (hf : res.1 = true) :
    res.2.1.isSome = true ∧ res.2.2 = none := by
  cases pr with
  | failure e =>
    simp only [classify_twitter] at h
    injection h with h
    subst h
    simp at hf
  | success r =>
    simp only [classify_twitter] at h
    repeat' split at h
    all_goals first
      | exact Except.noConfusion h
      | (injection h with h; subst h; exact ⟨rfl, rfl⟩)
      | (injection h with h; subst h; simp at hf)

theorem classify_default_found (s u : String) (pr : ProbeOutcome) (res : CheckTriple)
    (h : classify_default s u pr = .ok res) (hf : res.1 = true) :
    res.2.1.isSome = true ∧ res.2.2 = none := by
  cases pr with
  | failure e =>
    simp only [classify_default] at h
    injection h with h
    subst h
    simp at hf
  | success r =>
    simp only [classify_default] at h
    repeat' split at h
    all_goals first
      | exact Except.noConfusion h
      | (injection h with h; subst h; exact ⟨rfl, rfl⟩)
      | (injection h with h; subst h; simp at hf)

/-- C9: whenever `check_profile` returns without an uncaught exception and
    reports `exists = true`, the numeric HTTP status is present and the
    diagnostic note is absent — for every platform, handle, url and probe
    outcome. -/
theorem found_has_status_no_error (service username url : String)
    (pr : ProbeOutcome) (res : CheckTriple)
    (h : check_profile service username url pr = .ok res) (hf : res.1 = true) :
    res.2.1.isSome = true ∧ res.2.2 = none := by
  unfold check_profile at h
  split at h
  · exact classify_instagram_found username pr res h hf
  · split at h
    · exact classify_twitter_found username pr res h hf
    · exact classify_default_found service username pr res h hf

/-- C9 (witness): a github 200 response reports `exists = true` with
    status 200 present and no note. -/
theorem found_has_status_no_error_witness :
    (some 200 : Option Nat).isSome = true ∧ (none : Option String) = none :=
  found_has_status_no_error "github" "ghost" "https://github.com/ghost"
    (.success plain200Resp) (true, some 200, none) rfl rfl

/-! ## C4: completeness of the result table -/

theorem check_services_ids (probe : Probe) (u : String) :
    ∀ (svs : List (String × (String → String))) (res : List (String × UsernameCheckResult)),
      check_services probe u svs = .ok res → res.map Prod.fst = svs.map Prod.fst := by
  intro svs
  induction svs with
  | nil =>
    intro res h
    simp only [check_services] at h
    injection h with h
    subst h
    rfl
  | cons sv rest ih =>
    intro res h
    simp only [check_services] at h
    split at h
    · exact Except.noConfusion h
    · split at h
      · exact Except.noConfusion h
      next tail heq =>
        injection h with h
        subst h
        simp only [List.map_cons]
        exact congrArg (sv.1 :: ·) (ih tail heq)

theorem scan_tableKeys (probe : Probe) :
    ∀ (vs : List String) (tbl : List (String × List (String × UsernameCheckResult))),
      scan_variants probe vs = .ok tbl → tableKeys tbl = vs ×ˢ serviceIds := by
  intro vs
  induction vs with
  | nil =>
    intro tbl h
    simp only [scan_variants] at h
    injection h with h
    subst h
    rfl
  | cons v vs ih =>
    intro tbl h
    simp only [scan_variants, check_username_single] at h
    split at h
    · exact Except.noConfusion h
    next row hrow =>
      split at h
      · exact Except.noConfusion h
      next rest hrest =>
        injection h with h
        subst h
        have hids : row.map Prod.fst = serviceIds :=
          check_services_ids probe v SERVICES row hrow
        simp only [tableKeys, List.flatMap_cons, List.product_cons]
        have hrow' : row.map (fun q => (v, q.1)) = serviceIds.map (fun b => (v, b)) := by
          rw [← hids, List.map_map]
          rfl
        rw [hrow']
        exact congrArg (serviceIds.map (fun b => (v, b)) ++ ·) (ih rest hrest)

theorem serviceIds_nodup : serviceIds.Nodup := by decide

/-- C4: after a completed scan of base handle `base`, the keys of the
    result table are exactly the pairs (variant, platform) of the variant
    list crossed with the registry — no duplicates, no omissions — and the
    table holds exactly `v × k` check results. -/
theorem scan_table_complete (base : String) (probe : Probe)
    (tbl : List (String × List (String × UsernameCheckResult)))
    (h : run_scan_table probe base = .ok tbl) :
    (tableKeys tbl).Nodup
    ∧ (∀ v s, (v, s) ∈ tableKeys tbl ↔ v ∈ generate_variants base ∧ s ∈ serviceIds)
    ∧ (tableKeys tbl).length = (generate_variants base).length * serviceIds.length := by
  have hk : tableKeys tbl = (generate_variants base) ×ˢ serviceIds :=
    scan_tableKeys probe (generate_variants base) tbl h
  refine ⟨?_, ?_, ?_⟩
  · rw [hk]
    exact (generate_variants_nodup base).product serviceIds_nodup
  · intro v s
    rw [hk]
    exact List.mem_product
  · rw [hk]
    exact List.length_product _ _

/-- C4 (witness): the completed scan of base `"ab"` under an all-timeout
    probe has a duplicate-free key set of exactly 1 × 10 entries. -/
theorem scan_table_complete_witness :
    (tableKeys demoTable).Nodup
    ∧ (tableKeys demoTable).length = (generate_variants "ab").length * serviceIds.length :=
  ⟨(scan_table_complete "ab" timeoutProbe demoTable rfl).1,
   (scan_table_complete "ab" timeoutProbe demoTable rfl).2.2⟩
